/-
  Verification of the TravelWallet authentication / IP-throttling core
  (src/auth.py, src/models.py) against its natural-language specification.

  Shallow embedding conventions:
  * Physical time is an integer number of seconds on the UTC timeline.
  * A Python `datetime` is a wall-clock value (seconds) together with an
    optional `utcoffset` (in seconds); `none` models a naive datetime.
    Ordering and subtraction of a naive and an aware datetime raise
    TypeError in Python, which we model with `Except Unit`.
  * `datetime.utcnow()` at physical time `t` is the naive value `⟨t, none⟩`;
    `now_kst()` (models.py) is `datetime.now(KST)`, the aware value
    `⟨t + 9*3600, some (9*3600)⟩` for the same physical instant.
  * The SQLAlchemy session is a record of lists; `query(...).first()` is
    `List.find?` in insertion order, in-place mutation of the found row is
    `updateFirst`, `db.delete` of the found row is `List.eraseP`.
  * The UNIQUE index on login_tokens.token (models.py line 148) makes an
    insert of a duplicate code raise IntegrityError; we model the insert
    as `Except Unit`, the error meaning the transaction is rolled back.
  * `random.randint(100000, 999999)` and the Telegram delivery outcome are
    nondeterministic inputs; they are passed as explicit parameters.
-/
import Mathlib

deriving instance DecidableEq for Except

/-- A Python `datetime`: wall-clock seconds plus optional `utcoffset`
(seconds). `off = none` models a naive datetime, `off = some z` an aware
datetime in a timezone at UTC offset `z`. -/
structure PyDateTime where
  wall : Int
  off : Option Int
deriving Repr, DecidableEq

/-- Python `<` on datetimes: naive pairs compare by wall clock, aware pairs
compare by the instant (wall minus offset); comparing a naive with an aware
datetime raises TypeError. -/
def dtLt (a b : PyDateTime) : Except Unit Bool :=
  match a.off, b.off with
  | none, none => .ok (decide (a.wall < b.wall))
  | some x, some y => .ok (decide (a.wall - x < b.wall - y))
  | _, _ => .error ()

/-- Python `-` on datetimes, giving total seconds of the timedelta; mixing a
naive with an aware datetime raises TypeError. -/
def dtSub (a b : PyDateTime) : Except Unit Int :=
  match a.off, b.off with
  | none, none => .ok (a.wall - b.wall)
  | some x, some y => .ok ((a.wall - x) - (b.wall - y))
  | _, _ => .error ()

/-- `datetime.utcnow()` at physical time `t`: naive, wall clock = UTC. -/
def utcnow (t : Int) : PyDateTime := ⟨t, none⟩

/-- `now_kst()` (models.py): `datetime.now(KST)` at physical time `t`:
aware, wall clock nine hours ahead of UTC, offset +9h. -/
def now_kst (t : Int) : PyDateTime := ⟨t + 9 * 3600, some (9 * 3600)⟩

/-- Python `str.lower()`: lower-case the string character by character
(the credential strings involved are ASCII). -/
def pyLower (s : String) : String := ⟨s.data.map Char.toLower⟩

/-- Comparison of two stored datetimes inside a SQL filter
(e.g. `LoginToken.expires_at > datetime.utcnow()`): SQLite compares the
stored text chronologically; tzinfo is never stored, so this is wall-clock
comparison and never raises. -/
def sqlLt (a b : PyDateTime) : Bool := decide (a.wall < b.wall)

/-- Row of the `users` table (models.py). -/
structure User where
  id : Nat
  telegram_chat_id : String
  email : Option String
  is_active : Bool
  created_at : PyDateTime
  last_login : Option PyDateTime
  last_login_request : Option PyDateTime
deriving Repr, DecidableEq

/-- Row of the `login_tokens` table (models.py). The `token` column
carries a UNIQUE index. -/
structure LoginToken where
  id : Nat
  user_id : Nat
  token : String
  expires_at : PyDateTime
  is_used : Bool
  used_at : Option PyDateTime
deriving Repr, DecidableEq

/-- Row of the `ip_bans` table (models.py). -/
structure IPBan where
  id : Nat
  ip_address : String
  failed_attempts : Int
  banned_until : Option PyDateTime
  first_attempt : PyDateTime
  last_attempt : PyDateTime
deriving Repr, DecidableEq

/-- `IPBan.is_banned` (models.py lines 249-253):
`if self.banned_until and now_kst() < self.banned_until: return True`,
else `False`. A non-null `banned_until` is truthy, so the order comparison
between the aware `now_kst()` and `banned_until` is evaluated; it raises
TypeError whenever `banned_until` is naive. -/
def IPBan.is_banned (t : Int) (b : IPBan) : Except Unit Bool :=
  match b.banned_until with
  | none => .ok false
  | some bu => do
      let lt ← dtLt (now_kst t) bu
      pure lt

/-- The database session state: the three auth-relevant tables, each in
insertion order. -/
structure DB where
  users : List User
  login_tokens : List LoginToken
  ip_bans : List IPBan
deriving Repr, DecidableEq

/-- Module-level configuration of auth.py (environment values). -/
structure Config where
  SECRET_KEY : String
  ACCESS_TOKEN_EXPIRE_MINUTES : Int
  TELEGRAM_CHAT_ID : String
  ALLOWED_EMAIL : String
  MAX_LOGIN_ATTEMPTS : Int
  BAN_DURATION_MINUTES : Int
deriving Repr, DecidableEq

/-- The default configuration values of auth.py lines 42-55. -/
def defaultConfig : Config :=
  { SECRET_KEY := "your-secret-key-here-change-this-in-production"
    ACCESS_TOKEN_EXPIRE_MINUTES := 15
    TELEGRAM_CHAT_ID := "5496782369"
    ALLOWED_EMAIL := "me@yeonghoon.kim"
    MAX_LOGIN_ATTEMPTS := 5
    BAN_DURATION_MINUTES := 10 }

/-- In-place mutation of the first row satisfying `p` (SQLAlchemy: mutate
the object returned by `.filter(...).first()`, then commit). -/
def updateFirst (p : α → Bool) (f : α → α) : List α → List α
  | [] => []
  | x :: xs => if p x then f x :: xs else x :: updateFirst p f xs

/-- Autoincrement primary key: one more than the largest id in use. -/
def nextId (ids : List Nat) : Nat := ids.foldr max 0 + 1

/-- `db.query(IPBan).filter(IPBan.ip_address == ip).first()`. -/
def firstBanFor (db : DB) (ip : String) : Option IPBan :=
  db.ip_bans.find? (fun b => b.ip_address == ip)

/-- `AuthService.check_ip_ban` (auth.py lines 84-90): fetch the address's
ban row and return it when `is_banned()` holds; the TypeError raised by
`is_banned` on a non-null naive `banned_until` propagates. -/
def check_ip_ban (t : Int) (db : DB) (ip : String) : Except Unit (Option IPBan) :=
  match firstBanFor db ip with
  | none => .ok none
  | some b => do
      let banned ← b.is_banned t
      pure (if banned then some b else none)

/-- `AuthService.record_failed_attempt` (auth.py lines 92-116): create the
row with counter 1 on a first failure, otherwise increment the counter and
stamp `last_attempt`; when the incremented counter reaches
`MAX_LOGIN_ATTEMPTS`, set `banned_until = utcnow + BAN_DURATION_MINUTES`.
Returns the updated session and `failed_attempts >= MAX_LOGIN_ATTEMPTS`.
Note that the create branch never sets `banned_until`. -/
def record_failed_attempt (cfg : Config) (t : Int) (db : DB) (ip : String) :
    DB × Bool :=
  match firstBanFor db ip with
  | none =>
      let b : IPBan :=
        { id := nextId (db.ip_bans.map (·.id))
          ip_address := ip
          failed_attempts := 1
          banned_until := none
          first_attempt := utcnow t
          last_attempt := utcnow t }
      ({ db with ip_bans := db.ip_bans ++ [b] },
        decide ((1 : Int) ≥ cfg.MAX_LOGIN_ATTEMPTS))
  | some b =>
      let n := b.failed_attempts + 1
      let upd : IPBan → IPBan := fun x =>
        { x with
            failed_attempts := x.failed_attempts + 1
            last_attempt := utcnow t
            banned_until :=
              if x.failed_attempts + 1 ≥ cfg.MAX_LOGIN_ATTEMPTS then
                some (utcnow (t + cfg.BAN_DURATION_MINUTES * 60))
              else x.banned_until }
      ({ db with ip_bans := updateFirst (fun x => x.ip_address == ip) upd db.ip_bans },
        decide (n ≥ cfg.MAX_LOGIN_ATTEMPTS))

/-- `AuthService.reset_failed_attempts` (auth.py lines 118-124): delete the
address's ban row, if any, and commit. -/
def reset_failed_attempts (db : DB) (ip : String) : DB :=
  match firstBanFor db ip with
  | none => db
  | some _ =>
      { db with ip_bans := db.ip_bans.eraseP (fun b => b.ip_address == ip) }

/-- `AuthService.create_user` (auth.py lines 158-176): get-or-create the
user row keyed by the configured Telegram chat id, stamping
`last_login_request`. -/
def create_user (cfg : Config) (t : Int) (db : DB) : DB × User :=
  match db.users.find? (fun u => u.telegram_chat_id == cfg.TELEGRAM_CHAT_ID) with
  | some u =>
      let u2 := { u with last_login_request := some (utcnow t) }
      ({ db with
          users := updateFirst
            (fun x => x.telegram_chat_id == cfg.TELEGRAM_CHAT_ID)
            (fun x => { x with last_login_request := some (utcnow t) })
            db.users },
        u2)
  | none =>
      let u : User :=
        { id := nextId (db.users.map (·.id))
          telegram_chat_id := cfg.TELEGRAM_CHAT_ID
          email := none
          is_active := true
          created_at := utcnow t
          last_login := none
          last_login_request := some (utcnow t) }
      ({ db with users := db.users ++ [u] }, u)

/-- `AuthService.create_login_code` (auth.py lines 178-196): bulk-update
every token row of the user to `is_used = true`, then insert the freshly
drawn 6-digit code (the draw `random.randint(100000, 999999)` is the
parameter `code`) with expiry `utcnow + ACCESS_TOKEN_EXPIRE_MINUTES`.
The UNIQUE index on the token column makes the insert raise IntegrityError
whenever the code string equals any stored token's value; the error rolls
the whole transaction back, including the bulk update. -/
def create_login_code (cfg : Config) (t : Int) (code : Nat) (db : DB)
    (uid : Nat) : Except Unit (DB × LoginToken) :=
  let toks := db.login_tokens.map
    (fun lt => if lt.user_id == uid then { lt with is_used := true } else lt)
  let codeStr := toString code
  if toks.any (fun lt => lt.token == codeStr) then
    .error ()
  else
    let tok : LoginToken :=
      { id := nextId (db.login_tokens.map (·.id))
        user_id := uid
        token := codeStr
        expires_at := utcnow (t + cfg.ACCESS_TOKEN_EXPIRE_MINUTES * 60)
        is_used := false
        used_at := none }
    .ok ({ db with login_tokens := toks ++ [tok] }, tok)

/-- SQL filter of `validate_login_code`: literal string equality on the
token column, `is_used == False`, and `expires_at > datetime.utcnow()`. -/
def tokenMatches (t : Int) (code : String) (lt : LoginToken) : Bool :=
  lt.token == code && !lt.is_used && sqlLt (utcnow t) lt.expires_at

/-- `AuthService.validate_login_code` (auth.py lines 198-220): look up the
first token row matching the filter; on a miss return the session unchanged
and `none`. On a hit, mark that row used and stamp `used_at`, then look up
the owning user, stamp `last_login` when present, commit, and return the
user (or `none` when the user row is missing, the token still marked
used). -/
def validate_login_code (t : Int) (db : DB) (code : String) :
    DB × Option User :=
  match db.login_tokens.find? (tokenMatches t code) with
  | none => (db, none)
  | some lt =>
      let toks := updateFirst (tokenMatches t code)
        (fun l => { l with is_used := true, used_at := some (utcnow t) })
        db.login_tokens
      match db.users.find? (fun u => u.id == lt.user_id) with
      | none => ({ db with login_tokens := toks }, none)
      | some u =>
          let u2 := { u with last_login := some (utcnow t) }
          ({ db with
              login_tokens := toks
              users := updateFirst (fun x => x.id == lt.user_id)
                (fun x => { x with last_login := some (utcnow t) })
                db.users },
            some u2)

/-- Outcome of the Telegram delivery attempt in
`AuthService.send_login_code_telegram` (auth.py lines 222-267): either the
bot token is unset (development mode), the API call succeeds, or one of the
two except-clauses catches a raised exception. -/
inductive DeliveryOutcome where
  | noBotToken
  | sent
  | requestException
  | unexpectedException
deriving Repr, DecidableEq

/-- `AuthService.send_login_code_telegram`: both exception kinds are caught
locally and converted to `false`; absence of a bot token and API success
both yield `true`. No exception escapes. -/
def send_login_code_telegram : DeliveryOutcome → Bool
  | .noBotToken => true
  | .sent => true
  | .requestException => false
  | .unexpectedException => false

/-- Message of auth.py line 135 (RateLimited). -/
def msgRateLimited (remaining : Int) : String :=
  "IP가 차단되었습니다. " ++ toString remaining ++ "분 후 다시 시도하세요."

/-- Message of auth.py line 140 (TooManyAttempts). -/
def msgTooMany (d : Int) : String :=
  "너무 많은 실패로 인해 " ++ toString d ++ "분간 접속이 제한됩니다."

/-- Message of auth.py line 141 (UnknownCredential). -/
def msgUnknown : String := "등록되지 않은 이메일입니다."

/-- Message of auth.py line 154 (code delivered). -/
def msgSent : String := "인증 코드가 텔레그램으로 전송되었습니다."

/-- Message of auth.py line 156 (code generated, delivery failed). -/
def msgGenerated : String := "인증 코드가 생성되었습니다. (개발 모드)"

/-- `AuthService.verify_email_and_send_code` (auth.py lines 126-156).
Wrong credential: check the ban first (a TypeError from `is_banned`
propagates with the session unchanged); if banned, report remaining
minutes `int((banned_until - utcnow).total_seconds() / 60)` (a None or
aware-vs-naive subtraction raises); otherwise record the failure and
answer TooManyAttempts or UnknownCredential. Correct credential
(case-insensitive): delete the ban row (committed), get-or-create the
user (committed), create the code (an IntegrityError from the UNIQUE
index propagates with the two earlier commits retained), attempt
delivery, and return success with a wording that depends only on the
delivery outcome. -/
def verify_email_and_send_code (cfg : Config) (t : Int) (code : Nat)
    (outcome : DeliveryOutcome) (db : DB) (email ip : String) :
    DB × Except Unit (Bool × String) :=
  if pyLower email ≠ pyLower cfg.ALLOWED_EMAIL then
    match check_ip_ban t db ip with
    | .error e => (db, .error e)
    | .ok (some ib) =>
        match (match ib.banned_until with
               | none => Except.error ()
               | some bu => dtSub bu (utcnow t)) with
        | .error e => (db, .error e)
        | .ok secs => (db, .ok (false, msgRateLimited (Int.tdiv secs 60)))
    | .ok none =>
        let r := record_failed_attempt cfg t db ip
        if r.2 then (r.1, .ok (false, msgTooMany cfg.BAN_DURATION_MINUTES))
        else (r.1, .ok (false, msgUnknown))
  else
    let db1 := reset_failed_attempts db ip
    let r := create_user cfg t db1
    match create_login_code cfg t code r.1 r.2.id with
    | .error e => (r.1, .error e)
    | .ok (db3, _) =>
        if send_login_code_telegram outcome then (db3, .ok (true, msgSent))
        else (db3, .ok (true, msgGenerated))

/-- A sequence of wrong-credential login requests from one address, at the
given physical times, collecting each request's outcome. -/
def wrongRun (cfg : Config) (db : DB) (ip : String) :
    List Int → DB × List (Except Unit (Bool × String))
  | [] => (db, [])
  | t :: ts =>
      let r := verify_email_and_send_code cfg t 0 .sent db "bad@example.com" ip
      let rest := wrongRun cfg r.1 ip ts
      (rest.1, r.2 :: rest.2)

/-- Modelled from the spec: the decoded payload of a session token — the
caller-supplied claim entries (`jwt.encode` serializes a dict; the call
site passes integer-valued entries such as `user_id`) together with the
absolute `exp` claim, in POSIX seconds. -/
structure JWTClaims where
  data : List (String × Int)
  exp : Int
deriving Repr, DecidableEq

/-- Modelled from the spec: a token as seen by the external `jose` library
— either a well-formed token signed under some key, or a string that does
not parse as a token at all (tampering with a signed token's payload
re-keys or malforms it). -/
inductive JoseToken where
  | signed (payload : JWTClaims) (key : String)
  | malformed (raw : String)
deriving Repr, DecidableEq

/-- Modelled from the spec: `jose.jwt.encode` — signs the payload under the
key; deterministic, no side effects. -/
def jwt_encode (payload : JWTClaims) (key : String) : JoseToken :=
  .signed payload key

/-- Modelled from the spec: `jose.jwt.decode` at physical time `t` —
returns the payload when the signature verifies under `key` and the `exp`
claim is still in the future, and raises JWTError on any failure (bad
signature, malformed token, expired), modelled as `none`. -/
def jwt_decode (tok : JoseToken) (key : String) (t : Int) : Option JWTClaims :=
  match tok with
  | .malformed _ => none
  | .signed payload k =>
      if k == key && decide (t < payload.exp) then some payload else none

/-- `AuthService.create_access_token` (auth.py lines 63-73): copy the data,
set `exp` to `utcnow + expires_delta` (default
`ACCESS_TOKEN_EXPIRE_MINUTES`), and sign with `SECRET_KEY`. -/
def create_access_token (cfg : Config) (t : Int) (data : List (String × Int))
    (expires_delta : Option Int) : JoseToken :=
  let expire := match expires_delta with
    | some d => t + d
    | none => t + cfg.ACCESS_TOKEN_EXPIRE_MINUTES * 60
  jwt_encode { data := data, exp := expire } cfg.SECRET_KEY

/-- `AuthService.verify_token` (auth.py lines 75-82): decode under
`SECRET_KEY`; the `except JWTError` clause converts every decode failure
to `None`, so the function is total. -/
def verify_token (cfg : Config) (t : Int) (tok : JoseToken) : Option JWTClaims :=
  jwt_decode tok cfg.SECRET_KEY t

/-- The empty database. -/
def dbEmpty : DB := { users := [], login_tokens := [], ip_bans := [] }

/-- A ban row as produced by `record_failed_attempt` at the fifth failure
at physical time 40: `banned_until` holds the naive UTC datetime 640. -/
def banC4 : IPBan :=
  { id := 1, ip_address := "1.2.3.4", failed_attempts := 5
    banned_until := some (utcnow 640), first_attempt := utcnow 0
    last_attempt := utcnow 40 }

/-- An actively banned row for address 5.6.7.8 (ban runs to time 600). -/
def banActive : IPBan :=
  { id := 1, ip_address := "5.6.7.8", failed_attempts := 5
    banned_until := some (utcnow 600), first_attempt := utcnow 0
    last_attempt := utcnow 0 }

/-- A database whose only content is the ban row for 5.6.7.8. -/
def dbBanned : DB := { users := [], login_tokens := [], ip_bans := [banActive] }

/-- The configured user row (Telegram chat id 5496782369). -/
def userMain : User :=
  { id := 1, telegram_chat_id := "5496782369", email := none
    is_active := true, created_at := utcnow 0, last_login := none
    last_login_request := some (utcnow 0) }

/-- An already used, stored code record with value "123456" (audit
history; rows are never deleted). -/
def tokStored : LoginToken :=
  { id := 1, user_id := 1, token := "123456", expires_at := utcnow 900
    is_used := true, used_at := some (utcnow 10) }

/-- A ban row for 9.9.9.9 with three accumulated failures, not banned. -/
def banThree : IPBan :=
  { id := 1, ip_address := "9.9.9.9", failed_attempts := 3
    banned_until := none, first_attempt := utcnow 0, last_attempt := utcnow 0 }

/-- State for the C5 counterexample: a user, one stored code "123456",
and three failures on record for 9.9.9.9. -/
def dbC5 : DB := { users := [userMain], login_tokens := [tokStored], ip_bans := [banThree] }

/-- State for the C8 counterexample: a user and one stored code "123456". -/
def dbC8 : DB := { users := [userMain], login_tokens := [tokStored], ip_bans := [] }

/-- An unused, unexpired stored code record with value "654321". -/
def tokStored2 : LoginToken :=
  { id := 1, user_id := 1, token := "654321", expires_at := utcnow 900
    is_used := false, used_at := none }

/-- State for the C9 counterexample: a user and one stored code "654321". -/
def dbC9 : DB := { users := [userMain], login_tokens := [tokStored2], ip_bans := [] }

/-- A first, still valid (unused, unexpired at time 0) code record. -/
def tokFirstW : LoginToken :=
  { id := 1, user_id := 1, token := "111111", expires_at := utcnow 600
    is_used := false, used_at := none }

/-- The state before the second issuance: one user, one valid code. -/
def dbC2W : DB := { users := [userMain], login_tokens := [tokFirstW], ip_bans := [] }

/-- The second code record as created at time 0 with draw 222222. -/
def tokC2W : LoginToken :=
  { id := 2, user_id := 1, token := "222222", expires_at := utcnow 900
    is_used := false, used_at := none }

/-- The state after the second issuance: the first code marked used, the
second appended. -/
def dbC2W2 : DB :=
  { users := [userMain]
    login_tokens :=
      [{ id := 1, user_id := 1, token := "111111", expires_at := utcnow 600
         is_used := true, used_at := none }, tokC2W]
    ip_bans := [] }

/-- Number of unused, unexpired code rows owned by identity `uid` at
physical time `t` — the records the data-model invariant bounds by one. -/
def countActive (db : DB) (uid : Nat) (t : Int) : Nat :=
  (db.login_tokens.filter
    (fun lt => lt.user_id == uid && !lt.is_used && sqlLt (utcnow t) lt.expires_at)).length

/-- Splitting a list at the row returned by `.first()`: everything before
it fails the filter, and an in-place mutation rewrites exactly that row. -/
theorem updateFirst_split {α : Type} (p : α → Bool) (l : List α) (a : α)
    (h : l.find? p = some a) :
    ∃ l₁ l₂, l = l₁ ++ a :: l₂ ∧ (∀ x ∈ l₁, p x = false) ∧ p a = true ∧
      ∀ f : α → α, updateFirst p f l = l₁ ++ f a :: l₂ := by
  induction l with
  | nil => simp [List.find?] at h
  | cons x xs ih =>
      by_cases hx : p x
      · rw [List.find?_cons_of_pos _ hx] at h
        obtain rfl : x = a := by injection h
        exact ⟨[], xs, rfl, by simp, hx, fun f => by simp [updateFirst, hx]⟩
      · rw [List.find?_cons_of_neg _ hx] at h
        obtain ⟨l₁, l₂, h1, h2, h3, h4⟩ := ih h
        refine ⟨x :: l₁, l₂, by simp [h1], ?_, h3, fun f => ?_⟩
        · intro y hy
          rcases List.mem_cons.mp hy with rfl | hy
          · exact Bool.of_not_eq_true hx
          · exact h2 y hy
        · simp [updateFirst, hx, h4 f]

/-- A `.first()` lookup succeeds exactly when some row passes the filter. -/
theorem find?_isSome_iff {α : Type} (p : α → Bool) (l : List α) :
    (l.find? p).isSome ↔ ∃ x ∈ l, p x = true := by
  induction l with
  | nil => simp [List.find?]
  | cons x xs ih =>
      by_cases hx : p x
      · simp only [List.find?_cons_of_pos _ hx, Option.isSome_some, true_iff]
        exact ⟨x, List.mem_cons_self x xs, hx⟩
      · rw [List.find?_cons_of_neg _ hx]
        rw [ih]
        constructor
        · rintro ⟨y, hy, hpy⟩; exact ⟨y, List.mem_cons_of_mem x hy, hpy⟩
        · rintro ⟨y, hy, hpy⟩
          rcases List.mem_cons.mp hy with rfl | hy
          · exact absurd hpy hx
          · exact ⟨y, hy, hpy⟩

/-- Deleting the row found by a filter that at most one row can pass
leaves no row passing the filter. -/
theorem find?_eraseP_of_at_most_one {α : Type} (p : α → Bool) :
    ∀ l : List α, l.Pairwise (fun a b => ¬(p a = true ∧ p b = true)) →
      (l.eraseP p).find? p = none := by
  intro l
  induction l with
  | nil => intro _; simp
  | cons x xs ih =>
      intro h
      rw [List.pairwise_cons] at h
      by_cases hx : p x
      · rw [List.eraseP_cons_of_pos hx]
        rw [List.find?_eq_none]
        intro y hy hpy
        exact h.1 y hy ⟨hx, hpy⟩
      · rw [List.eraseP_cons_of_neg (by simpa using hx)]
        rw [List.find?_cons_of_neg _ hx]
        exact ih h.2

/-- `find?` over an appended singleton whose element passes the filter,
when nothing in the prefix passes it. -/
theorem find?_append_singleton {α : Type} (p : α → Bool) (l : List α) (a : α)
    (hl : ∀ x ∈ l, p x = false) (ha : p a = true) :
    (l ++ [a]).find? p = some a := by
  induction l with
  | nil => simp [List.find?_cons_of_pos _ ha]
  | cons x xs ih =>
      have hx : p x = false := hl x (List.mem_cons_self x xs)
      rw [List.cons_append, List.find?_cons_of_neg _ (by simp [hx])]
      exact ih (fun y hy => hl y (List.mem_cons_of_mem x hy))

/-- A filtered map collapses to a plain filter when the mapping neither
creates new matches nor moves a matching row. -/
theorem filter_map_eq_filter {α : Type} (p : α → Bool) (f : α → α)
    (l : List α) (h : ∀ x ∈ l, p (f x) = p x ∧ (p x = true → f x = x)) :
    (l.map f).filter p = l.filter p := by
  induction l with
  | nil => rfl
  | cons x xs ih =>
      have hx := h x (List.mem_cons_self x xs)
      have ihx := ih (fun y hy => h y (List.mem_cons_of_mem x hy))
      by_cases hpx : p x
      · simp only [List.map_cons, List.filter_cons, hx.1, hpx, if_pos, ihx,
          hx.2 hpx]
      · simp only [List.map_cons, List.filter_cons, hx.1,
          Bool.of_not_eq_true hpx, Bool.false_eq_true, if_false, ihx]

/-- C1: with the default threshold 5 and ban duration 10 minutes, a run of
six wrong-credential requests from 1.2.3.4 at times 0,10,20,30,40,41 gives
UnknownCredential four times, then TooManyAttempts on the fifth request —
whose recorded ban row indeed holds `failed_attempts = 5` and
`banned_until = utcnow 40 + 600 = 640`, as the claim states — but the
sixth request, made while the ban is active, raises TypeError (modelled
`Except.error`) instead of returning RateLimited with a positive
remaining-minutes value: `IPBan.is_banned` compares the timezone-aware
`now_kst()` with the naive UTC `banned_until`. -/
theorem C1_sixth_request_crashes_instead_of_rate_limited :
    (wrongRun defaultConfig dbEmpty "1.2.3.4" [0, 10, 20, 30, 40, 41]).2 =
      [.ok (false, msgUnknown), .ok (false, msgUnknown), .ok (false, msgUnknown),
       .ok (false, msgUnknown), .ok (false, msgTooMany 10), .error ()]
    ∧ firstBanFor (wrongRun defaultConfig dbEmpty "1.2.3.4" [0, 10, 20, 30, 40]).1 "1.2.3.4"
        = some banC4 := by
  decide

/-- C4: a ban row whose `banned_until` is non-null and strictly in the
future of the evaluation time (wall 640 versus evaluation at physical time
0) must count as banned per the claim, but `is_banned` raises TypeError:
the clock used to set `banned_until` (`datetime.utcnow()`, naive) and the
clock used to evaluate (`now_kst()`, aware KST) do not agree, and Python
refuses to order a naive against an aware datetime. -/
theorem C4_ban_evaluation_raises_on_clock_mismatch :
    banC4.banned_until = some (utcnow 640)
    ∧ sqlLt (utcnow 0) (utcnow 640) = true
    ∧ IPBan.is_banned 0 banC4 = .error ()
    ∧ dtLt (now_kst 0) (utcnow 640) = .error () := by
  decide

/-- C6: a wrong-credential request from the actively banned address
5.6.7.8 leaves the ban row (indeed the whole database) unchanged — the ban
check does run before failure recording — but the response is a raised
TypeError (modelled `Except.error`), not RateLimited. -/
theorem C6_banned_address_request_crashes_with_record_unchanged :
    verify_email_and_send_code defaultConfig 1 111111 .sent dbBanned
      "bad@example.com" "5.6.7.8" = (dbBanned, .error ()) := by
  decide

/-- C10: for the address 5.6.7.8 whose ban row holds five failures and an
already expired `banned_until` (wall 600, request at physical time 1200),
the claim expects the next wrong-credential request to re-ban at once and
answer TooManyAttempts; instead the request raises TypeError inside
`IPBan.is_banned` before reaching `record_failed_attempt`, because the
expiry test itself compares the aware KST clock with the naive stored
datetime. -/
theorem C10_request_after_ban_expiry_crashes :
    sqlLt (utcnow 600) (utcnow 1200) = true
    ∧ verify_email_and_send_code defaultConfig 1200 111111 .sent dbBanned
        "bad@example.com" "5.6.7.8" = (dbBanned, .error ()) := by
  decide

/-- C5 counterexample: a correct-credential request (the claim's scope)
from 9.9.9.9, whose freshly drawn code 123456 equals the stored code
record "123456", does delete the address's ban row (that deletion is
committed first), but the request itself fails with IntegrityError on the
token column's UNIQUE index instead of succeeding. -/
theorem C5_correct_credential_request_can_fail_on_code_collision :
    (verify_email_and_send_code defaultConfig 100 123456 .sent dbC5
        "me@yeonghoon.kim" "9.9.9.9").2 = .error ()
    ∧ (verify_email_and_send_code defaultConfig 100 123456 .sent dbC5
        "me@yeonghoon.kim" "9.9.9.9").1.ip_bans = [] := by
  decide

/-- C8 counterexample: issuing a code whose freshly generated 6-digit
value 123456 (inside the 100000-999999 range) equals the value of the
previously stored code record "123456" does not succeed: the insert
violates the UNIQUE index on the token column and the creation fails. -/
theorem C8_insertion_fails_on_stored_code_collision :
    tokStored.token = toString 123456
    ∧ create_login_code defaultConfig 1000 123456 dbC8 1 = .error () := by
  decide

/-- C9 counterexample: a correct-credential request (the credential even
matching only case-insensitively) whose freshly drawn code 654321 equals
the stored code "654321" fails with IntegrityError before any delivery is
attempted, so this call returns no success result. -/
theorem C9_correct_credential_request_without_success_result :
    (verify_email_and_send_code defaultConfig 50 654321 .sent dbC9
        "ME@YEONGHOON.KIM" "8.8.8.8").2 = .error () := by
  decide

/-- C7: for every identity id, verifying the token issued for
`{"user_id": id}` before its expiry returns claims containing the id;
verifying at or after the expiry instant returns empty; and `verify_token`
returns empty — it is a total function, the `except JWTError` clause
converting every failure to `None` — on any malformed token and on any
token signed under a different key (tampering). -/
theorem C7_session_round_trip (cfg : Config) (uid : Int) (t tv : Int) :
    (tv < t + cfg.ACCESS_TOKEN_EXPIRE_MINUTES * 60 →
      ∃ c, verify_token cfg tv (create_access_token cfg t [("user_id", uid)] none) = some c
        ∧ ("user_id", uid) ∈ c.data)
    ∧ (t + cfg.ACCESS_TOKEN_EXPIRE_MINUTES * 60 ≤ tv →
      verify_token cfg tv (create_access_token cfg t [("user_id", uid)] none) = none)
    ∧ (∀ raw, verify_token cfg tv (.malformed raw) = none)
    ∧ (∀ payload k, k ≠ cfg.SECRET_KEY →
        verify_token cfg tv (.signed payload k) = none) := by
  refine ⟨?_, ?_, ?_, ?_⟩
  · intro hlt
    refine ⟨{ data := [("user_id", uid)], exp := t + cfg.ACCESS_TOKEN_EXPIRE_MINUTES * 60 }, ?_, ?_⟩
    · simp [verify_token, create_access_token, jwt_encode, jwt_decode, hlt]
    · simp
  · intro hge
    simp [verify_token, create_access_token, jwt_encode, jwt_decode, not_lt.mpr hge]
  · intro raw; rfl
  · intro payload k hk
    simp [verify_token, jwt_decode, hk]

/-- Witness for C7 at `cfg = defaultConfig`, `uid = 1`, issue time 0:
verification at time 10 (before the 900-second expiry) yields claims
containing the id, and verification at time 1000 (after expiry) yields
empty. -/
theorem C7_session_round_trip_witness :
    (∃ c, verify_token defaultConfig 10 (create_access_token defaultConfig 0 [("user_id", 1)] none) = some c
        ∧ ("user_id", (1 : Int)) ∈ c.data)
    ∧ verify_token defaultConfig 1000 (create_access_token defaultConfig 0 [("user_id", 1)] none) = none := by
  exact ⟨(C7_session_round_trip defaultConfig 1 0 10).1 (by decide),
         (C7_session_round_trip defaultConfig 1 0 1000).2.1 (by decide)⟩

/-- Marking a user's tokens used changes no token string, so the UNIQUE
collision test over the updated rows equals the test over the original
rows. -/
theorem any_token_map_markUsed (uid : Nat) (s : String) (l : List LoginToken) :
    (l.map (fun lt => if lt.user_id == uid then { lt with is_used := true } else lt)).any
      (fun lt => lt.token == s)
    = l.any (fun lt => lt.token == s) := by
  induction l with
  | nil => rfl
  | cons x xs ih =>
      by_cases hu : (x.user_id == uid) = true
      · rw [List.map_cons, List.any_cons, List.any_cons, if_pos hu, ih]
      · rw [List.map_cons, List.any_cons, List.any_cons, if_neg hu, ih]

/-- C8 amended: `create_login_code` performs no collision check of its
own, but code uniqueness is enforced by the storage layer: the insertion
succeeds exactly when the freshly generated value differs from every
previously stored code record (used or not, of any identity); on a
collision the UNIQUE index on the token column makes the insertion fail. -/
theorem C8_amended_insertion_ok_iff_no_stored_collision (cfg : Config)
    (t : Int) (code : Nat) (db : DB) (uid : Nat) :
    (∃ d, create_login_code cfg t code db uid = .ok d)
      ↔ ∀ lt ∈ db.login_tokens, lt.token ≠ toString code := by
  unfold create_login_code
  simp only [any_token_map_markUsed]
  by_cases h : db.login_tokens.any (fun lt => lt.token == toString code)
  · simp only [h, if_true]
    rw [List.any_eq_true] at h
    obtain ⟨lt, hm, he⟩ := h
    constructor
    · rintro ⟨d, hd⟩
      exact absurd hd (by simp)
    · intro hall
      exact absurd (by simpa using he) (hall lt hm)
  · simp only [h, Bool.false_eq_true, if_false]
    rw [Bool.not_eq_true, List.any_eq_false] at h
    constructor
    · intro _ lt hm
      simpa using h lt hm
    · intro _
      exact ⟨_, rfl⟩

/-- `reset_failed_attempts` touches only the ip_bans table. -/
theorem reset_failed_attempts_frame (db : DB) (ip : String) :
    (reset_failed_attempts db ip).users = db.users
    ∧ (reset_failed_attempts db ip).login_tokens = db.login_tokens := by
  unfold reset_failed_attempts
  cases firstBanFor db ip <;> exact ⟨rfl, rfl⟩

/-- `create_user` touches only the users table. -/
theorem create_user_frame (cfg : Config) (t : Int) (db : DB) :
    (create_user cfg t db).1.login_tokens = db.login_tokens
    ∧ (create_user cfg t db).1.ip_bans = db.ip_bans := by
  unfold create_user
  cases db.users.find? (fun u => u.telegram_chat_id == cfg.TELEGRAM_CHAT_ID) <;>
    exact ⟨rfl, rfl⟩

/-- The user returned by `create_user` exists in the resulting users
table, under the same id. -/
theorem create_user_mem (cfg : Config) (t : Int) (db : DB) :
    ∃ u ∈ (create_user cfg t db).1.users, u.id = (create_user cfg t db).2.id := by
  unfold create_user
  cases hf : db.users.find? (fun u => u.telegram_chat_id == cfg.TELEGRAM_CHAT_ID) with
  | none =>
      refine ⟨_, List.mem_append_right _ (List.mem_singleton_self _), rfl⟩
  | some u =>
      obtain ⟨l₁, l₂, _, _, _, h4⟩ := updateFirst_split _ _ _ hf
      exact ⟨_, by rw [h4]; exact List.mem_append_right _ (List.mem_cons_self _ _), rfl⟩

/-- When the freshly drawn code collides with no stored code record,
`create_login_code` succeeds and its result is the bulk-updated token
table with the new row appended. -/
theorem create_login_code_eq_ok (cfg : Config) (t : Int) (code : Nat)
    (db : DB) (uid : Nat)
    (hc : ∀ lt ∈ db.login_tokens, lt.token ≠ toString code) :
    create_login_code cfg t code db uid = .ok
      ({ db with login_tokens :=
          (db.login_tokens.map
            (fun lt => if lt.user_id == uid then { lt with is_used := true } else lt))
          ++ [{ id := nextId (db.login_tokens.map (·.id)), user_id := uid
                token := toString code
                expires_at := utcnow (t + cfg.ACCESS_TOKEN_EXPIRE_MINUTES * 60)
                is_used := false, used_at := none }] },
       { id := nextId (db.login_tokens.map (·.id)), user_id := uid
         token := toString code
         expires_at := utcnow (t + cfg.ACCESS_TOKEN_EXPIRE_MINUTES * 60)
         is_used := false, used_at := none }) := by
  unfold create_login_code
  have h : (db.login_tokens.any (fun lt => lt.token == toString code)) = false := by
    rw [List.any_eq_false]
    intro lt hm
    simpa using hc lt hm
  simp only [any_token_map_markUsed, h, Bool.false_eq_true, if_false]

/-- A used row never passes the validation filter. -/
theorem tokenMatches_false_of_used {t : Int} {code : String} {lt : LoginToken}
    (h : lt.is_used = true) : tokenMatches t code lt = false := by
  simp [tokenMatches, h]

/-- A row with a different token string never passes the validation
filter. -/
theorem tokenMatches_false_of_ne {t : Int} {code : String} {lt : LoginToken}
    (h : lt.token ≠ code) : tokenMatches t code lt = false := by
  simp [tokenMatches, h]

/-- With the UNIQUE index invariant in force, two stored rows carrying the
same token string are the same row. -/
theorem token_unique {l : List LoginToken}
    (hd : l.Pairwise (fun a b => a.token ≠ b.token)) :
    ∀ a ∈ l, ∀ b ∈ l, a.token = b.token → a = b := by
  intro a ha b hb heq
  by_contra hne
  exact (hd.forall (fun x y h => Ne.symm h) ha hb hne) heq

/-- A successful code creation presupposes that no stored row carries the
new code string (otherwise the UNIQUE index fires). -/
theorem create_login_code_ok_no_collision (cfg : Config) (t : Int)
    (code : Nat) (db : DB) (uid : Nat) (d : DB × LoginToken)
    (hc : create_login_code cfg t code db uid = .ok d) :
    ∀ lt ∈ db.login_tokens, lt.token ≠ toString code := by
  intro lt hm heq
  unfold create_login_code at hc
  have ha : (db.login_tokens.any fun l => l.token == toString code) = true :=
    List.any_eq_true.mpr ⟨lt, hm, by simp [heq]⟩
  simp only [any_token_map_markUsed, ha, if_true] at hc
  exact absurd hc (by simp)

/-- C2: when issuing a new code succeeds, every prior code row of the
identity appears in the result marked used (the bulk update runs before
the insert), so validating any prior unused, unexpired code — in
particular a first code still valid when the second is issued — returns
empty; and afterwards the identity owns at most one unused, unexpired
row at every instant, while other identities' active-row counts are
untouched. The pairwise hypothesis is the UNIQUE index invariant on the
token column. -/
theorem C2_second_code_invalidates_first (cfg : Config) (t : Int)
    (code : Nat) (db db2 : DB) (uid : Nat) (tok first : LoginToken)
    (hd : db.login_tokens.Pairwise (fun a b => a.token ≠ b.token))
    (hc : create_login_code cfg t code db uid = .ok (db2, tok))
    (hmem : first ∈ db.login_tokens) (huid : first.user_id = uid)
    (hunused : first.is_used = false) (hfresh : t < first.expires_at.wall) :
    (∀ t2, validate_login_code t2 db2 first.token = (db2, none))
    ∧ { first with is_used := true } ∈ db2.login_tokens
    ∧ (∀ t2, countActive db2 uid t2 ≤ 1)
    ∧ (∀ v, v ≠ uid → ∀ t2, countActive db2 v t2 = countActive db v t2) := by
  have hnc : ∀ lt ∈ db.login_tokens, lt.token ≠ toString code :=
    create_login_code_ok_no_collision cfg t code db uid (db2, tok) hc
  have h2 := (create_login_code_eq_ok cfg t code db uid hnc).symm.trans hc
  injection h2 with h3
  injection h3 with hdb htok
  subst hdb
  subst htok
  set g : LoginToken → LoginToken :=
    fun lt => if lt.user_id == uid then { lt with is_used := true } else lt with hg
  set newTok : LoginToken :=
    { id := nextId (db.login_tokens.map (·.id)), user_id := uid
      token := toString code
      expires_at := utcnow (t + cfg.ACCESS_TOKEN_EXPIRE_MINUTES * 60)
      is_used := false, used_at := none } with hnew
  have hgfirst : g first = { first with is_used := true } := by
    simp only [hg]
    rw [if_pos (by simp [huid])]
  have hnofind : ∀ t2, (db.login_tokens.map g ++ [newTok]).find?
      (tokenMatches t2 first.token) = none := by
    intro t2
    rw [List.find?_eq_none]
    intro x hx
    rcases List.mem_append.mp hx with hx | hx
    · obtain ⟨y, hy, rfl⟩ := List.mem_map.mp hx
      by_cases hyu : (y.user_id == uid) = true
      · have hgy : g y = { y with is_used := true } := by
          simp only [hg]; rw [if_pos hyu]
        rw [hgy]
        simp [@tokenMatches_false_of_used t2 first.token { y with is_used := true } rfl]
      · have hgy : g y = y := by
          simp only [hg]; rw [if_neg hyu]
        rw [hgy]
        have hyne : y ≠ first := by
          intro h
          exact hyu (by rw [h]; simp [huid])
        have : y.token ≠ first.token := by
          intro h
          exact hyne (token_unique hd y hy first hmem h)
        simp [tokenMatches_false_of_ne this]
    · rw [List.mem_singleton.mp hx]
      have : newTok.token ≠ first.token := by
        simp only [hnew]
        exact fun h => (hnc first hmem) h.symm
      simp [tokenMatches_false_of_ne this]
  refine ⟨?_, ?_, ?_, ?_⟩
  · intro t2
    unfold validate_login_code
    rw [hnofind t2]
  · exact List.mem_append_left _ (hgfirst ▸ List.mem_map_of_mem g hmem)
  · intro t2
    unfold countActive
    rw [List.filter_append]
    have hmapped : (db.login_tokens.map g).filter
        (fun lt => lt.user_id == uid && !lt.is_used && sqlLt (utcnow t2) lt.expires_at) = [] := by
      rw [List.filter_eq_nil]
      intro x hx
      obtain ⟨y, hy, rfl⟩ := List.mem_map.mp hx
      by_cases hyu : (y.user_id == uid) = true
      · have hgy : g y = { y with is_used := true } := by
          simp only [hg]; rw [if_pos hyu]
        rw [hgy]; simp
      · have hgy : g y = y := by
          simp only [hg]; rw [if_neg hyu]
        rw [hgy]; simp only [Bool.and_eq_true, not_and]
        intro h _
        exact hyu h.1
    rw [hmapped, List.nil_append]
    exact List.length_filter_le _ _
  · intro v hv t2
    unfold countActive
    rw [List.filter_append]
    have hnewv : ([newTok].filter
        (fun lt => lt.user_id == v && !lt.is_used && sqlLt (utcnow t2) lt.expires_at)) = [] := by
      rw [List.filter_eq_nil]
      intro x hx
      rw [List.mem_singleton.mp hx]
      simp only [hnew, Bool.and_eq_true, not_and]
      intro h _
      exact absurd (by simpa using h.1) (Ne.symm hv)
    have hmap : (db.login_tokens.map g).filter
        (fun lt => lt.user_id == v && !lt.is_used && sqlLt (utcnow t2) lt.expires_at)
        = db.login_tokens.filter
          (fun lt => lt.user_id == v && !lt.is_used && sqlLt (utcnow t2) lt.expires_at) := by
      apply filter_map_eq_filter
      intro x _
      by_cases hyu : (x.user_id == uid) = true
      · have hgx : g x = { x with is_used := true } := by
          simp only [hg]; rw [if_pos hyu]
        have hxv : (x.user_id == v) = false := by
          have : x.user_id = uid := by simpa using hyu
          simp [this, Ne.symm hv]
        constructor
        · rw [hgx]; simp [hxv]
        · intro h
          rw [hxv] at h
          simp at h
      · have hgx : g x = x := by
          simp only [hg]; rw [if_neg hyu]
        rw [hgx]
        exact ⟨rfl, fun _ => rfl⟩
    rw [hnewv, hmap, List.append_nil]

/-- C3: under the UNIQUE index invariant and referential integrity of
`login_tokens.user_id`, validation returns an identity exactly when some
stored row equals the supplied string literally with `used = false` and
`expires_at > now`; on success the returned user carries the fresh
last-authenticated stamp, the result state holds the row marked used with
its used-at stamp and the owner row restamped, and a second validation of
the same code against the result state returns empty with the state
unchanged; a miss leaves the state unchanged, and an unused row whose
expiry has passed yields empty. -/
theorem C3_validate_code_contract (t : Int) (db : DB) (code : String)
    (hd : db.login_tokens.Pairwise (fun a b => a.token ≠ b.token))
    (hfk : ∀ lt ∈ db.login_tokens, ∃ u ∈ db.users, u.id = lt.user_id) :
    ((validate_login_code t db code).2.isSome = true ↔
      ∃ lt ∈ db.login_tokens, lt.token = code ∧ lt.is_used = false ∧ t < lt.expires_at.wall)
    ∧ (∀ u, (validate_login_code t db code).2 = some u →
        u.last_login = some (utcnow t)
        ∧ (∃ lt ∈ (validate_login_code t db code).1.login_tokens,
            lt.token = code ∧ lt.is_used = true ∧ lt.used_at = some (utcnow t) ∧ lt.user_id = u.id)
        ∧ (∃ u0 ∈ (validate_login_code t db code).1.users,
            u0.id = u.id ∧ u0.last_login = some (utcnow t))
        ∧ ∀ t2, validate_login_code t2 (validate_login_code t db code).1 code
            = ((validate_login_code t db code).1, none))
    ∧ ((validate_login_code t db code).2 = none → (validate_login_code t db code).1 = db)
    ∧ (∀ lt ∈ db.login_tokens, lt.token = code → lt.is_used = false →
        lt.expires_at.wall ≤ t → (validate_login_code t db code).2 = none) := by
  cases hfind : db.login_tokens.find? (tokenMatches t code) with
  | none =>
      have hval : validate_login_code t db code = (db, none) := by
        unfold validate_login_code
        rw [hfind]
      have hnomatch := List.find?_eq_none.mp hfind
      refine ⟨?_, ?_, ?_, ?_⟩
      · rw [hval]
        simp only [Option.isSome_none, Bool.false_eq_true, false_iff]
        rintro ⟨lt, hm, h1, h2, h3⟩
        exact hnomatch lt hm (by simp [tokenMatches, sqlLt, utcnow, h1, h2, h3])
      · intro u hu
        rw [hval] at hu
        exact absurd hu (by simp)
      · intro _
        rw [hval]
      · intro lt hm h1 h2 h3
        rw [hval]
  | some lt0 =>
      have hp0 := List.find?_some hfind
      have hmem0 := List.mem_of_find?_eq_some hfind
      have hp : lt0.token = code ∧ lt0.is_used = false ∧ t < lt0.expires_at.wall := by
        simpa [tokenMatches, sqlLt, utcnow, and_assoc] using hp0
      obtain ⟨u0, hu0m, hu0id⟩ := hfk lt0 hmem0
      have husome : (db.users.find? (fun u => u.id == lt0.user_id)).isSome = true :=
        (find?_isSome_iff _ _).mpr ⟨u0, hu0m, by simp [hu0id]⟩
      obtain ⟨u, hufind⟩ := Option.isSome_iff_exists.mp husome
      obtain ⟨l₁, l₂, hsplit, hl₁, hpa, hupd⟩ := updateFirst_split _ _ _ hfind
      obtain ⟨m₁, m₂, husplit, hm₁, hpu, huupd⟩ := updateFirst_split _ _ _ hufind
      have hpuid : u.id = lt0.user_id := by simpa using hpu
      have hval : validate_login_code t db code =
          ({ db with
              login_tokens := updateFirst (tokenMatches t code)
                (fun l => { l with is_used := true, used_at := some (utcnow t) })
                db.login_tokens
              users := updateFirst (fun x => x.id == lt0.user_id)
                (fun x => { x with last_login := some (utcnow t) })
                db.users },
            some { u with last_login := some (utcnow t) }) := by
        simp only [validate_login_code, hfind, hufind]
      have hdtok := hd
      rw [hsplit, List.pairwise_append] at hdtok
      have hl₁ne : ∀ x ∈ l₁, x.token ≠ code := fun x hx h =>
        (hdtok.2.2 x hx lt0 (List.mem_cons_self _ _)) (h.trans hp.1.symm)
      have hl₂ne : ∀ x ∈ l₂, x.token ≠ code := fun x hx h =>
        (List.pairwise_cons.mp hdtok.2.1).1 x hx (hp.1.trans h.symm)
      have hnofind2 : ∀ t2,
          (updateFirst (tokenMatches t code)
            (fun l => { l with is_used := true, used_at := some (utcnow t) })
            db.login_tokens).find? (tokenMatches t2 code) = none := by
        intro t2
        rw [hupd, List.find?_eq_none]
        intro x hx
        rcases List.mem_append.mp hx with hx | hx
        · simp [tokenMatches_false_of_ne (hl₁ne x hx)]
        · rcases List.mem_cons.mp hx with rfl | hx
          · simp [@tokenMatches_false_of_used t2 code
              { lt0 with is_used := true, used_at := some (utcnow t) } rfl]
          · simp [tokenMatches_false_of_ne (hl₂ne x hx)]
      refine ⟨?_, ?_, ?_, ?_⟩
      · rw [hval]
        simp only [Option.isSome_some, true_iff]
        exact ⟨lt0, hmem0, hp.1, hp.2.1, hp.2.2⟩
      · intro u2 hu2
        rw [hval] at hu2
        have hu2eq : u2 = { u with last_login := some (utcnow t) } := by
          injection hu2.symm
        subst hu2eq
        refine ⟨rfl, ?_, ?_, ?_⟩
        · rw [hval]
          refine ⟨{ lt0 with is_used := true, used_at := some (utcnow t) }, ?_, hp.1, rfl, rfl, ?_⟩
          · rw [hupd]
            exact List.mem_append_right _ (List.mem_cons_self _ _)
          · exact hpuid.symm.trans (by rfl)
        · rw [hval]
          refine ⟨{ u with last_login := some (utcnow t) }, ?_, rfl, rfl⟩
          rw [huupd]
          exact List.mem_append_right _ (List.mem_cons_self _ _)
        · intro t2
          rw [hval]
          simp only [validate_login_code, hnofind2 t2]
      · intro hnone
        rw [hval] at hnone
        exact absurd hnone (by simp)
      · intro lt hm h1 h2 h3
        have : lt = lt0 := token_unique hd lt hm lt0 hmem0 (h1.trans hp.1.symm)
        subst this
        exact absurd hp.2.2 (not_lt.mpr h3)

/-- The correct-credential path of `verify_email_and_send_code` for a
fresh (non-colliding) code: the call commits the ban-row deletion, the
user get-or-create and the code insertion, and returns success with a
wording depending only on the delivery outcome. -/
theorem verify_success_path (cfg : Config) (t : Int) (code : Nat)
    (outcome : DeliveryOutcome) (db : DB) (email ip : String)
    (hmail : pyLower email = pyLower cfg.ALLOWED_EMAIL)
    (hcode : ∀ lt ∈ db.login_tokens, lt.token ≠ toString code) :
    verify_email_and_send_code cfg t code outcome db email ip =
      ({ users := (create_user cfg t (reset_failed_attempts db ip)).1.users
         login_tokens := ((create_user cfg t (reset_failed_attempts db ip)).1.login_tokens.map
            (fun lt => if lt.user_id == (create_user cfg t (reset_failed_attempts db ip)).2.id
                       then { lt with is_used := true } else lt))
            ++ [{ id := nextId ((create_user cfg t (reset_failed_attempts db ip)).1.login_tokens.map (·.id))
                  user_id := (create_user cfg t (reset_failed_attempts db ip)).2.id
                  token := toString code
                  expires_at := utcnow (t + cfg.ACCESS_TOKEN_EXPIRE_MINUTES * 60)
                  is_used := false, used_at := none }]
         ip_bans := (create_user cfg t (reset_failed_attempts db ip)).1.ip_bans },
       .ok (true, if send_login_code_telegram outcome then msgSent else msgGenerated)) := by
  have hrt : (create_user cfg t (reset_failed_attempts db ip)).1.login_tokens
      = db.login_tokens := by
    rw [(create_user_frame cfg t (reset_failed_attempts db ip)).1,
        (reset_failed_attempts_frame db ip).2]
  have hcode2 : ∀ lt ∈ (create_user cfg t (reset_failed_attempts db ip)).1.login_tokens,
      lt.token ≠ toString code := by
    rw [hrt]; exact hcode
  have hok := create_login_code_eq_ok cfg t code
    (create_user cfg t (reset_failed_attempts db ip)).1
    (create_user cfg t (reset_failed_attempts db ip)).2.id hcode2
  unfold verify_email_and_send_code
  rw [if_neg (fun hne => hne hmail)]
  simp only [hok]
  cases hs : send_login_code_telegram outcome <;> simp [hs]

/-- Under the one-row-per-address invariant, deleting the address's ban
row leaves no row for that address. -/
theorem reset_clears_ban (db : DB) (ip : String)
    (hbanu : db.ip_bans.Pairwise (fun a b => a.ip_address ≠ b.ip_address)) :
    (reset_failed_attempts db ip).ip_bans.find? (fun b => b.ip_address == ip) = none := by
  unfold reset_failed_attempts
  cases hfb : firstBanFor db ip with
  | none => exact hfb
  | some b =>
      exact find?_eraseP_of_at_most_one _ _
        (hbanu.imp (fun hne hpq =>
          hne (((by simpa using hpq.1 : _ = ip)).trans (by simpa using hpq.2 : _ = ip).symm)))

/-- A wrong-credential request from an address with no ban row creates a
fresh row counting from one, with no ban set. -/
theorem wrong_attempt_after_clear (cfg : Config) (t2 : Int) (code2 : Nat)
    (outcome2 : DeliveryOutcome) (X : DB) (email2 ip : String)
    (hmail2 : pyLower email2 ≠ pyLower cfg.ALLOWED_EMAIL)
    (hnone : firstBanFor X ip = none) :
    ∃ b2, firstBanFor
        (verify_email_and_send_code cfg t2 code2 outcome2 X email2 ip).1 ip = some b2
      ∧ b2.failed_attempts = 1 ∧ b2.banned_until = none := by
  have hchk : check_ip_ban t2 X ip = .ok (none : Option IPBan) := by
    unfold check_ip_ban
    rw [hnone]
  have hrec : record_failed_attempt cfg t2 X ip =
      ({ X with ip_bans := X.ip_bans ++
          [{ id := nextId (X.ip_bans.map (·.id)), ip_address := ip
             failed_attempts := 1, banned_until := none
             first_attempt := utcnow t2, last_attempt := utcnow t2 }] },
        decide ((1 : Int) ≥ cfg.MAX_LOGIN_ATTEMPTS)) := by
    unfold record_failed_attempt
    rw [hnone]
  refine ⟨{ id := nextId (X.ip_bans.map (·.id)), ip_address := ip
            failed_attempts := 1, banned_until := none
            first_attempt := utcnow t2, last_attempt := utcnow t2 }, ?_, rfl, rfl⟩
  unfold verify_email_and_send_code
  rw [if_pos hmail2]
  simp only [hchk, hrec]
  have hfb : firstBanFor
      { X with ip_bans := X.ip_bans ++
          [{ id := nextId (X.ip_bans.map (·.id)), ip_address := ip
             failed_attempts := 1, banned_until := none
             first_attempt := utcnow t2, last_attempt := utcnow t2 }] } ip =
      some { id := nextId (X.ip_bans.map (·.id)), ip_address := ip
             failed_attempts := 1, banned_until := none
             first_attempt := utcnow t2, last_attempt := utcnow t2 } := by
    unfold firstBanFor
    exact find?_append_singleton _ _ _
      (fun x hx => Bool.eq_false_iff.mpr (List.find?_eq_none.mp hnone x hx)) (by simp)
  cases hq : decide ((1 : Int) ≥ cfg.MAX_LOGIN_ATTEMPTS) <;> simp only [hq, if_true,
    Bool.false_eq_true, if_false] <;> exact hfb

/-- C5 amended: a correct-credential request — the credential compared
case-insensitively, any prior failure count, even during an active ban —
deletes the address's ban row entirely, and provided the freshly drawn
code collides with no stored code record the request succeeds; the next
wrong-credential attempt from that address then creates a fresh row
counting from one with no ban set. (On a collision the insert fails on
the UNIQUE index although the ban deletion is already committed; see the
counterexample.) The pairwise hypothesis is the one-row-per-address
shape of the ip_bans table. -/
theorem C5_amended_success_clears_ban_and_restarts_count (cfg : Config)
    (t : Int) (code : Nat) (outcome : DeliveryOutcome) (db : DB)
    (email ip : String)
    (hmail : pyLower email = pyLower cfg.ALLOWED_EMAIL)
    (hbanu : db.ip_bans.Pairwise (fun a b => a.ip_address ≠ b.ip_address))
    (hcode : ∀ lt ∈ db.login_tokens, lt.token ≠ toString code) :
    (∃ m, (verify_email_and_send_code cfg t code outcome db email ip).2 = .ok (true, m))
    ∧ firstBanFor (verify_email_and_send_code cfg t code outcome db email ip).1 ip = none
    ∧ (∀ t2 code2 outcome2 email2, pyLower email2 ≠ pyLower cfg.ALLOWED_EMAIL →
        ∃ b2, firstBanFor (verify_email_and_send_code cfg t2 code2 outcome2
            (verify_email_and_send_code cfg t code outcome db email ip).1 email2 ip).1 ip
              = some b2
          ∧ b2.failed_attempts = 1 ∧ b2.banned_until = none) := by
  have hmain := verify_success_path cfg t code outcome db email ip hmail hcode
  have hXnone : firstBanFor
      (verify_email_and_send_code cfg t code outcome db email ip).1 ip = none := by
    rw [hmain]
    show ((create_user cfg t (reset_failed_attempts db ip)).1.ip_bans).find? _ = none
    rw [(create_user_frame cfg t (reset_failed_attempts db ip)).2]
    exact reset_clears_ban db ip hbanu
  refine ⟨⟨if send_login_code_telegram outcome then msgSent else msgGenerated, ?_⟩,
    hXnone, fun t2 code2 outcome2 email2 hmail2 =>
      wrong_attempt_after_clear cfg t2 code2 outcome2 _ email2 ip hmail2 hXnone⟩
  rw [hmain]

/-- C9 amended: for every correct-credential request whose freshly drawn
code collides with no stored code record, the operation returns a success
result regardless of the delivery outcome (both exception kinds being
caught locally inside the delivery helper), the resulting state does not
depend on the delivery outcome, the issued code validates successfully
before its expiry, and only the wording of the message differs between
the sent and generated outcomes. (On a collision the request fails before
any delivery attempt; see the counterexample.) -/
theorem C9_amended_success_regardless_of_delivery (cfg : Config) (t : Int)
    (code : Nat) (db : DB) (email ip : String)
    (hmail : pyLower email = pyLower cfg.ALLOWED_EMAIL)
    (hcode : ∀ lt ∈ db.login_tokens, lt.token ≠ toString code) :
    (∀ outcome, (verify_email_and_send_code cfg t code outcome db email ip).2
        = .ok (true, if send_login_code_telegram outcome then msgSent else msgGenerated))
    ∧ (∀ o1 o2, (verify_email_and_send_code cfg t code o1 db email ip).1
        = (verify_email_and_send_code cfg t code o2 db email ip).1)
    ∧ (∀ outcome t2, t2 < t + cfg.ACCESS_TOKEN_EXPIRE_MINUTES * 60 →
        ((validate_login_code t2
            (verify_email_and_send_code cfg t code outcome db email ip).1
            (toString code)).2).isSome = true) := by
  refine ⟨?_, ?_, ?_⟩
  · intro outcome
    rw [verify_success_path cfg t code outcome db email ip hmail hcode]
  · intro o1 o2
    rw [verify_success_path cfg t code o1 db email ip hmail hcode,
        verify_success_path cfg t code o2 db email ip hmail hcode]
  · intro outcome t2 ht2
    rw [verify_success_path cfg t code outcome db email ip hmail hcode]
    have hrt : (create_user cfg t (reset_failed_attempts db ip)).1.login_tokens
        = db.login_tokens := by
      rw [(create_user_frame cfg t (reset_failed_attempts db ip)).1,
          (reset_failed_attempts_frame db ip).2]
    set uid := (create_user cfg t (reset_failed_attempts db ip)).2.id with huid
    set newTok : LoginToken :=
      { id := nextId ((create_user cfg t (reset_failed_attempts db ip)).1.login_tokens.map (·.id))
        user_id := uid
        token := toString code
        expires_at := utcnow (t + cfg.ACCESS_TOKEN_EXPIRE_MINUTES * 60)
        is_used := false, used_at := none } with hnewTok
    have hfind : (((create_user cfg t (reset_failed_attempts db ip)).1.login_tokens.map
          (fun lt => if lt.user_id == uid then { lt with is_used := true } else lt))
        ++ [newTok]).find? (tokenMatches t2 (toString code)) = some newTok := by
      apply find?_append_singleton
      · intro x hx
        obtain ⟨y, hy, rfl⟩ := List.mem_map.mp hx
        rw [hrt] at hy
        have hyne : y.token ≠ toString code := hcode y hy
        by_cases hyu : (y.user_id == uid) = true
        · rw [if_pos hyu]
          exact tokenMatches_false_of_ne hyne
        · rw [if_neg hyu]
          exact tokenMatches_false_of_ne hyne
      · simp [hnewTok, tokenMatches, sqlLt, utcnow, ht2]
    obtain ⟨u, hum, huid2⟩ := create_user_mem cfg t (reset_failed_attempts db ip)
    have husome : (((create_user cfg t (reset_failed_attempts db ip)).1.users).find?
        (fun x => x.id == newTok.user_id)).isSome = true :=
      (find?_isSome_iff _ _).mpr ⟨u, hum, by simp [hnewTok, huid2]⟩
    obtain ⟨u1, hu1⟩ := Option.isSome_iff_exists.mp husome
    simp only [validate_login_code, hfind, hu1]
    rfl

/-- Witness for C2: issuing code 222222 at time 0 over a state holding the
valid code "111111" yields `dbC2W2`; validating "111111" there returns
empty, the first row appears marked used, identity 1 owns at most one
active row, and identity 2's count is untouched. -/
theorem C2_second_code_invalidates_first_witness :
    validate_login_code 5 dbC2W2 tokFirstW.token = (dbC2W2, none)
    ∧ { tokFirstW with is_used := true } ∈ dbC2W2.login_tokens
    ∧ countActive dbC2W2 1 5 ≤ 1
    ∧ countActive dbC2W2 2 5 = countActive dbC2W 2 5 := by
  have h := C2_second_code_invalidates_first defaultConfig 0 222222 dbC2W dbC2W2 1 tokC2W
    tokFirstW (by decide) (by decide) (by decide) (by decide) (by decide) (by decide)
  exact ⟨h.1 5, h.2.1, h.2.2.1 5, h.2.2.2 2 (by decide) 5⟩

/-- Witness for C3: at time 10 the stored, unused code "654321" (expiring
at 900) validates successfully against `dbC9`. -/
theorem C3_validate_code_contract_witness :
    (validate_login_code 10 dbC9 "654321").2.isSome = true := by
  exact (C3_validate_code_contract 10 dbC9 "654321" (by decide) (by decide)).1.mpr
    ⟨tokStored2, by decide, rfl, rfl, by decide⟩

/-- Witness for C5 amended: the correct credential from 9.9.9.9 — an
address with three failures on record — succeeds with the fresh draw
999000 and deletes the address's ban row. -/
theorem C5_amended_witness :
    (∃ m, (verify_email_and_send_code defaultConfig 100 999000 .sent dbC5
        "me@yeonghoon.kim" "9.9.9.9").2 = .ok (true, m))
    ∧ firstBanFor (verify_email_and_send_code defaultConfig 100 999000 .sent dbC5
        "me@yeonghoon.kim" "9.9.9.9").1 "9.9.9.9" = none := by
  have h := C5_amended_success_clears_ban_and_restarts_count defaultConfig 100 999000 .sent
    dbC5 "me@yeonghoon.kim" "9.9.9.9" (by decide) (by decide) (by decide)
  exact ⟨h.1, h.2.1⟩

/-- Witness for C8 amended: the draw 111222 collides with nothing stored
in `dbC9`, so the insertion succeeds. -/
theorem C8_amended_witness :
    ∃ d, create_login_code defaultConfig 7 111222 dbC9 1 = .ok d := by
  exact (C8_amended_insertion_ok_iff_no_stored_collision defaultConfig 7 111222 dbC9 1).mpr
    (by decide)

/-- Witness for C9 amended: the correct credential supplied in upper case
with fresh draw 111222 returns success even when the delivery request
raises (the exception is caught), with the generated-mode wording. -/
theorem C9_amended_witness :
    (verify_email_and_send_code defaultConfig 50 111222 .requestException dbC9
        "ME@YEONGHOON.KIM" "8.8.8.8").2 = .ok (true, msgGenerated) := by
  have h := C9_amended_success_regardless_of_delivery defaultConfig 50 111222 dbC9
    "ME@YEONGHOON.KIM" "8.8.8.8" (by decide) (by decide)
  simpa using h.1 .requestException
